import Mathlib

/-!
Shallow embedding of `src/server.js` (an OpenAI-compatible proxy for the
NVIDIA NIM API) and proofs about its request validation, model resolution,
response normalization, streaming re-framing and error mapping.

Modelling conventions:
* JavaScript runtime values that the proxy manipulates are modelled by
  `JsVal`.  `undefined` is JavaScript `undefined` (the result of reading an
  absent property); `null` is JSON `null`; `fn` stands for a function or
  exotic object value inherited from `Object.prototype` (these arise only
  from indexing the model table with names such as `"toString"`).
* Strings inside `JsVal` are `List Char`; `chars` converts a Lean string
  literal.  Byte chunks of the upstream stream are treated as text
  (`List Char`); the code calls `chunk.toString()` on each chunk, and every
  input relevant to the claims is ASCII, so one char corresponds to one byte.
* `Date.now()` is modelled by a parameter `now : Nat` held constant for the
  request; only the `id`/`created` fields depend on it and no claim relies
  on distinct timestamps.
* Property access: `getProp` models `v.k` on a value that is not
  `null`/`undefined` (on primitives it yields `undefined`, which is accurate
  for every key this program reads); `getPropQ` models `v?.k`
  (short-circuiting on nullish values); `getIdxQ` models `v?.[i]`.
-/

namespace NimProxy

/-- Convert a Lean string literal to the character-list representation used
throughout the embedding. -/
def chars (s : String) : List Char := s.data

mutual

/-- JavaScript runtime values manipulated by the proxy.  `numRaw` keeps the
raw token of a JSON number that has a fraction or exponent part (the claims
never depend on float arithmetic); `fn` is a function/exotic object inherited
from `Object.prototype`.  Arrays hold a `JsList`, objects a `JsFields`
association sequence (mutual inductives so that equality is decidable). -/
inductive JsVal where
  | undefined : JsVal
  | null : JsVal
  | bool (b : Bool) : JsVal
  | num (n : Int) : JsVal
  | numRaw (tok : List Char) : JsVal
  | str (s : List Char) : JsVal
  | arr (xs : JsList) : JsVal
  | obj (fields : JsFields) : JsVal
  | fn (name : List Char) : JsVal
deriving Repr, DecidableEq

inductive JsList where
  | nil : JsList
  | cons (v : JsVal) (rest : JsList) : JsList
deriving Repr, DecidableEq

inductive JsFields where
  | nil : JsFields
  | cons (k : List Char) (v : JsVal) (rest : JsFields) : JsFields
deriving Repr, DecidableEq

end

/-- Build an array value from a Lean list. -/
def JsList.ofList : List JsVal → JsList
  | [] => .nil
  | v :: rest => .cons v (JsList.ofList rest)

/-- Number of elements of a `JsList` (JavaScript `xs.length`). -/
def JsList.length : JsList → Nat
  | .nil => 0
  | .cons _ rest => 1 + JsList.length rest

/-- Element at an index, `undefined` when out of range (JavaScript
`xs[i]` on an array). -/
def JsList.get : JsList → Nat → JsVal
  | .nil, _ => .undefined
  | .cons v _, 0 => v
  | .cons _ rest, n + 1 => JsList.get rest n

/-- Build an object's field sequence from a Lean association list. -/
def JsFields.ofList : List (List Char × JsVal) → JsFields
  | [] => .nil
  | (k, v) :: rest => .cons k v (JsFields.ofList rest)

/-- First field with the given key, `undefined` when absent. -/
def JsFields.lookup : JsFields → List Char → JsVal
  | .nil, _ => .undefined
  | .cons k v rest, key => if k == key then v else JsFields.lookup rest key

/-- Overwrite-or-append assignment used when a parsed JSON object repeats a
key: JavaScript keeps a single binding whose value is the later one. -/
def JsFields.set : JsFields → List Char → JsVal → JsFields
  | .nil, key, v => .cons key v .nil
  | .cons k w rest, key, v =>
    if k == key then .cons k v rest else .cons k w (JsFields.set rest key v)

/-- Array value from a Lean list of values. -/
def jarr (xs : List JsVal) : JsVal := .arr (JsList.ofList xs)

/-- Object value from a Lean association list. -/
def jobj (fs : List (List Char × JsVal)) : JsVal := .obj (JsFields.ofList fs)

/-- Shorthand for a JavaScript string value. -/
def jstr (s : String) : JsVal := .str (chars s)

/-- The digits of a raw numeric token that determine its value: everything
before any exponent marker.  The token denotes zero iff these are all `0`. -/
def mantissaDigits (tok : List Char) : List Char :=
  (tok.takeWhile (fun c => c ≠ 'e' ∧ c ≠ 'E')).filter Char.isDigit

/-- JavaScript truthiness: `undefined`, `null`, `false`, `0`, `NaN` and the
empty string are falsy; every object, array and function is truthy. -/
def JsVal.truthy : JsVal → Bool
  | .undefined => false
  | .null => false
  | .bool b => b
  | .num n => n ≠ 0
  | .numRaw tok => ¬ (mantissaDigits tok).all (· = '0')
  | .str s => s ≠ []
  | .arr _ => true
  | .obj _ => true
  | .fn _ => true

/-- A value is nullish when it is `null` or `undefined`; property access on a
nullish value throws, and `?.` short-circuits on it. -/
def JsVal.nullish : JsVal → Bool
  | .undefined => true
  | .null => true
  | _ => false

/-- JavaScript `a || b`. -/
def jsOr (a b : JsVal) : JsVal := if a.truthy then a else b

/-- Property read `v.k` for a non-nullish `v` (callers model the throwing
nullish case separately).  On primitives the result is `undefined`, which is
accurate for every property name this program reads. -/
def getProp : JsVal → List Char → JsVal
  | .obj fields, k => fields.lookup k
  | _, _ => .undefined

/-- Optional property read `v?.k`. -/
def getPropQ (v : JsVal) (k : List Char) : JsVal :=
  if v.nullish then .undefined else getProp v k

/-- Optional index read `v?.[i]`.  On an object, `v[i]` coerces the index to
its decimal string. -/
def getIdxQ (v : JsVal) (i : Nat) : JsVal :=
  match v with
  | .undefined => .undefined
  | .null => .undefined
  | .arr xs => xs.get i
  | .obj fields => JsFields.lookup fields (chars (toString i))
  | _ => .undefined

/-- Test for `typeof v === 'string'`. -/
def JsVal.isStr : JsVal → Bool
  | .str _ => true
  | _ => false

/-- Test for `Array.isArray(v)`. -/
def JsVal.isArr : JsVal → Bool
  | .arr _ => true
  | _ => false

/-- Length of an array value (`v.length` on arrays; callers guard with
`isArr`). -/
def JsVal.arrLen : JsVal → Nat
  | .arr xs => xs.length
  | _ => 0
/-! ## Model Resolver (src/server.js lines 19-32, 87) -/

/-- Default fallback model, `DEFAULT_NIM_MODEL` (line 19). -/
def DEFAULT_NIM_MODEL : String := "meta/llama-3.1-70b-instruct"

/-- Own properties of the `MODEL_MAPPING` object literal (lines 22-32). -/
def MODEL_MAPPING : List (List Char × List Char) :=
  [ (chars "gpt-3.5-turbo", chars "meta/llama-3.1-8b-instruct"),
    (chars "gpt-4", chars "meta/llama-3.1-70b-instruct"),
    (chars "gpt-4-turbo", chars "meta/llama-3.1-405b-instruct"),
    (chars "gpt-4o", chars "meta/llama-3.1-405b-instruct"),
    (chars "gpt-4o-mini", chars "meta/llama-3.1-8b-instruct"),
    (chars "claude-3-opus", chars "meta/llama-3.1-405b-instruct"),
    (chars "claude-3-sonnet", chars "meta/llama-3.1-70b-instruct"),
    (chars "claude-3-haiku", chars "meta/llama-3.1-8b-instruct"),
    (chars "gemini-pro", chars "meta/llama-3.1-70b-instruct") ]

/-- Property names every plain JavaScript object literal inherits from
`Object.prototype`.  Indexing `MODEL_MAPPING` with one of these names yields
the inherited function (for `__proto__`, an object) instead of `undefined`;
all of those inherited values are truthy and are not strings. -/
def objectProtoProps : List (List Char) :=
  [ chars "constructor", chars "hasOwnProperty", chars "isPrototypeOf",
    chars "propertyIsEnumerable", chars "toLocaleString", chars "toString",
    chars "valueOf", chars "__proto__", chars "__defineGetter__",
    chars "__defineSetter__", chars "__lookupGetter__",
    chars "__lookupSetter__" ]

/-- The JavaScript expression `MODEL_MAPPING[m]` for a string key `m`:
an own property yields its string value; a name inherited from
`Object.prototype` yields the inherited (truthy, non-string) value; any other
key yields `undefined`. -/
def modelIndex (m : List Char) : JsVal :=
  match MODEL_MAPPING.find? (fun p => p.1 == m) with
  | some p => .str p.2
  | none => if objectProtoProps.contains m then .fn m else .undefined

/-- Line 87: `let nimModel = MODEL_MAPPING[model] || DEFAULT_NIM_MODEL`.
`MODEL_MAPPING[model]` is only reached with `model` a string (validation has
passed); the non-string branch is unreachable. -/
def resolveModel (m : List Char) : JsVal :=
  jsOr (modelIndex m) (.str (chars DEFAULT_NIM_MODEL))

/-! ## Request Handler: validation and upstream request (lines 58-96) -/

/-- JSON error body `{error: {message, type, param, code}}` written by the
handler, together with the HTTP status passed to `res.status(...)`.  The
`type` field is named `etype` because `type` is a Lean keyword. -/
structure ErrorResponse where
  status : JsVal
  message : JsVal
  etype : String
  param : JsVal
  code : JsVal
deriving Repr, DecidableEq

/-- Upstream request body `nimRequest` (lines 90-96). -/
structure NimRequest where
  model : JsVal
  messages : JsVal
  temperature : JsVal
  max_tokens : JsVal
  stream : JsVal
deriving Repr, DecidableEq

/-- The 400 response for a missing/malformed `model` (lines 64-72). -/
def modelValidationError : ErrorResponse :=
  { status := .num 400,
    message := jstr "you must provide a model parameter",
    etype := "invalid_request_error",
    param := jstr "model",
    code := .null }

/-- The 400 response for missing/malformed `messages` (lines 76-84). -/
def messagesValidationError : ErrorResponse :=
  { status := .num 400,
    message := jstr "messages is required and must be a non-empty array",
    etype := "invalid_request_error",
    param := jstr "messages",
    code := .null }

/-- Validation and upstream-request construction of the handler
(lines 60-96): destructure the body, return a 400 error response if `model`
fails `!model || typeof model !== 'string'` or `messages` fails
`!messages || !Array.isArray(messages) || messages.length === 0`
(model first), else build `nimRequest`.  The result is `none` when the body
itself is nullish, in which case the destructuring on line 60 throws and the
outer `catch` answers instead (express's JSON middleware never delivers a
nullish body). -/
def handleRequest (body : JsVal) : Option (Except ErrorResponse NimRequest) :=
  if body.nullish then none
  else some (
    if ¬ (getProp body (chars "model")).truthy ∨
        ¬ (getProp body (chars "model")).isStr then
      .error modelValidationError
    else if ¬ (getProp body (chars "messages")).truthy ∨
        ¬ (getProp body (chars "messages")).isArr ∨
        (getProp body (chars "messages")).arrLen = 0 then
      .error messagesValidationError
    else
      .ok {
        model :=
          match getProp body (chars "model") with
          | .str m => resolveModel m
          | _ => resolveModel []   -- unreachable: model is a string here
        messages := getProp body (chars "messages"),
        temperature :=
          if getProp body (chars "temperature") = .undefined
          then .numRaw (chars "0.7")
          else getProp body (chars "temperature"),
        max_tokens := jsOr (getProp body (chars "max_tokens")) (.num 2048),
        stream := jsOr (getProp body (chars "stream")) (.bool false) })

/-! ## Response Normalizer (lines 171-191) -/

/-- The single choice of the non-streaming envelope.  `message.role` is the
literal `"assistant"`. -/
structure RespChoice where
  index : Int
  messageRole : String
  messageContent : JsVal
  finish_reason : JsVal
deriving Repr, DecidableEq

/-- The `usage` object of the non-streaming envelope. -/
structure UsageOut where
  prompt_tokens : JsVal
  completion_tokens : JsVal
  total_tokens : JsVal
deriving Repr, DecidableEq

/-- Non-streaming completion envelope `openaiResponse` (lines 171-189). -/
structure OpenAIResponse where
  id : String
  object : String
  created : Nat
  model : String
  choices : List RespChoice
  usage : UsageOut
deriving Repr, DecidableEq

/-- First upstream choice, `data.choices?.[0]` for a non-nullish `data`. -/
def firstChoice (data : JsVal) : JsVal :=
  getIdxQ (getProp data (chars "choices")) 0

/-- Response Normalizer (lines 171-189): builds `openaiResponse` from the
buffered upstream body.  `now` is the `Date.now()` reading in milliseconds.
The result is `none` when the body is nullish: `response.data.choices`
(line 180) then throws and the outer `catch` answers instead. -/
def normalizeResponse (now : Nat) (model : String) (data : JsVal) :
    Option OpenAIResponse :=
  if data.nullish then none
  else some {
    id := "chatcmpl-" ++ toString now,
    object := "chat.completion",
    created := now / 1000,
    model := model,
    choices := [{
      index := 0,
      messageRole := "assistant",
      messageContent :=
        jsOr (getPropQ (getPropQ (firstChoice data) (chars "message"))
                (chars "content")) (jstr ""),
      finish_reason :=
        jsOr (getPropQ (firstChoice data) (chars "finish_reason"))
          (jstr "stop") }],
    usage := {
      prompt_tokens :=
        jsOr (getPropQ (getProp data (chars "usage")) (chars "prompt_tokens"))
          (.num 0),
      completion_tokens :=
        jsOr (getPropQ (getProp data (chars "usage"))
                (chars "completion_tokens")) (.num 0),
      total_tokens :=
        jsOr (getPropQ (getProp data (chars "usage")) (chars "total_tokens"))
          (.num 0) } }

/-! ## Streaming chunk construction (lines 131-151) -/

/-- The single choice of a streaming chunk.  `deltaRole = none` means the
`role` key is absent from the serialized `delta` object (the code deletes the
key when its value is falsy, line 147-149; `JSON.stringify` would also omit
an `undefined` value). -/
structure ChunkChoice where
  index : Int
  deltaRole : Option JsVal
  deltaContent : JsVal
  finish_reason : JsVal
deriving Repr, DecidableEq

/-- Streaming chunk `openaiChunk` (lines 131-144). -/
structure OpenAIChunk where
  id : String
  object : String
  created : Nat
  model : String
  choices : List ChunkChoice
deriving Repr, DecidableEq

/-- The delta object of one parsed upstream event,
`nimData.choices?.[0]?.delta` (lines 139-140). -/
def upstreamDelta (nimData : JsVal) : JsVal :=
  getPropQ (firstChoice nimData) (chars "delta")

/-- The upstream role of one parsed event, `nimData.choices?.[0]?.delta?.role`
(line 139). -/
def upstreamDeltaRole (nimData : JsVal) : JsVal :=
  getPropQ (upstreamDelta nimData) (chars "role")

/-- Chunk construction from one parsed upstream event `nimData`
(lines 131-149).  The result is `none` when `nimData` is nullish:
`nimData.choices?...` (line 139) then throws a `TypeError`, which the
surrounding `try`/`catch` turns into a logged parse error. -/
def buildChunk (now : Nat) (model : String) (nimData : JsVal) :
    Option OpenAIChunk :=
  if nimData.nullish then none
  else
    some {
      id := "chatcmpl-" ++ toString now,
      object := "chat.completion.chunk",
      created := now / 1000,
      model := model,
      choices := [{
        index := 0,
        deltaRole := if (upstreamDeltaRole nimData).truthy
                     then some (upstreamDeltaRole nimData) else none,
        deltaContent :=
          jsOr (getPropQ (upstreamDelta nimData) (chars "content")) (jstr ""),
        finish_reason :=
          jsOr (getPropQ (firstChoice nimData) (chars "finish_reason"))
            .null }] }

/-! ## JSON.parse model

A recursive-descent parser for the JSON grammar accepted by JavaScript's
`JSON.parse`: optional ASCII whitespace, `null`/`true`/`false`, numbers
without leading zeros, double-quoted strings with the standard escapes,
arrays and objects (a repeated object key keeps the later value, as in
JavaScript).  Numbers with a fraction or exponent part are kept as their raw
token (`numRaw`); integer tokens become `num`.  Composite values use a fuel
parameter; `jsonParse` supplies fuel larger than any possible recursion
depth, so fuel exhaustion never rejects an input the grammar accepts. -/

/-- Drop the JSON whitespace characters `JSON.parse` skips. -/
def skipWs : List Char → List Char
  | c :: cs =>
    if c = ' ' ∨ c = '\t' ∨ c = '\n' ∨ c = '\r' then skipWs cs else c :: cs
  | [] => []

/-- Value of a hexadecimal digit, if any. -/
def hexVal (c : Char) : Option Nat :=
  if '0' ≤ c ∧ c ≤ '9' then some (c.toNat - 48)
  else if 'a' ≤ c ∧ c ≤ 'f' then some (c.toNat - 87)
  else if 'A' ≤ c ∧ c ≤ 'F' then some (c.toNat - 55)
  else none

/-- Body of a JSON string after the opening quote: returns the decoded
characters and the input after the closing quote.  Control characters are
rejected; the escapes are the eight standard ones plus `\uXXXX`. -/
def parseStringBody (acc : List Char) : List Char → Option (List Char × List Char)
  | [] => none
  | c :: cs =>
    if c = '"' then some (acc.reverse, cs)
    else if c = '\\' then
      match cs with
      | [] => none
      | e :: cs' =>
        if e = '"' then parseStringBody ('"' :: acc) cs'
        else if e = '\\' then parseStringBody ('\\' :: acc) cs'
        else if e = '/' then parseStringBody ('/' :: acc) cs'
        else if e = 'b' then parseStringBody ((Char.ofNat 8) :: acc) cs'
        else if e = 'f' then parseStringBody ((Char.ofNat 12) :: acc) cs'
        else if e = 'n' then parseStringBody ('\n' :: acc) cs'
        else if e = 'r' then parseStringBody ('\r' :: acc) cs'
        else if e = 't' then parseStringBody ('\t' :: acc) cs'
        else if e = 'u' then
          match cs' with
          | h1 :: h2 :: h3 :: h4 :: cs'' =>
            match hexVal h1, hexVal h2, hexVal h3, hexVal h4 with
            | some a, some b, some c2, some d =>
              parseStringBody
                (Char.ofNat (a * 4096 + b * 256 + c2 * 16 + d) :: acc) cs''
            | _, _, _, _ => none
          | _ => none
        else none
    else if c.toNat < 32 then none
    else parseStringBody (c :: acc) cs

/-- Longest digit run at the head of the input. -/
def takeDigits : List Char → List Char × List Char
  | [] => ([], [])
  | c :: cs =>
    if c.isDigit then
      let (ds, r) := takeDigits cs
      (c :: ds, r)
    else ([], c :: cs)

/-- Numeric value of a digit run. -/
def digitsToNat (ds : List Char) : Nat :=
  ds.foldl (fun a c => a * 10 + (c.toNat - 48)) 0

/-- Exponent part of a JSON number: returns its raw characters (empty when no
exponent follows) and the remaining input, or `none` when an exponent marker
is present but malformed. -/
def parseExpPart (s : List Char) : Option (List Char × List Char) :=
  match s with
  | e :: r =>
    if e = 'e' ∨ e = 'E' then
      let (sgn, r1) :=
        match r with
        | '+' :: r' => (['+'], r')
        | '-' :: r' => (['-'], r')
        | _ => ([], r)
      let (ds, r2) := takeDigits r1
      if ds = [] then none else some (e :: (sgn ++ ds), r2)
    else some ([], s)
  | [] => some ([], [])

/-- A JSON number token: optional minus, an integer part without leading
zeros, optional fraction, optional exponent.  Integer tokens yield `num`;
tokens with a fraction or exponent are kept raw as `numRaw`. -/
def parseNum (s : List Char) : Option (JsVal × List Char) :=
  let (neg, s1) := match s with
    | '-' :: r => (true, r)
    | _ => (false, s)
  match s1 with
  | [] => none
  | c :: rest =>
    if ¬ c.isDigit then none
    else if c = '0' && (match rest with | d :: _ => d.isDigit | [] => false) then
      none
    else
      let (intDs, r1) := if c = '0' then (['0'], rest) else takeDigits s1
      let signDs : List Char := if neg then ['-'] else []
      match r1 with
      | '.' :: r2 =>
        let (fracDs, r3) := takeDigits r2
        if fracDs = [] then none
        else
          match parseExpPart r3 with
          | none => none
          | some (expDs, r4) =>
            some (.numRaw (signDs ++ intDs ++ '.' :: fracDs ++ expDs), r4)
      | _ =>
        match parseExpPart r1 with
        | none => none
        | some (expDs, r4) =>
          if expDs = [] then
            some (.num (if neg then -(digitsToNat intDs : Int)
                        else (digitsToNat intDs : Int)), r1)
          else some (.numRaw (signDs ++ intDs ++ expDs), r4)

mutual

/-- One JSON value, consuming leading whitespace. -/
def parseVal : Nat → List Char → Option (JsVal × List Char)
  | 0, _ => none
  | fuel + 1, s =>
    match skipWs s with
    | [] => none
    | c :: cs =>
      if c = 'n' then
        match cs with
        | 'u' :: 'l' :: 'l' :: r => some (.null, r)
        | _ => none
      else if c = 't' then
        match cs with
        | 'r' :: 'u' :: 'e' :: r => some (.bool true, r)
        | _ => none
      else if c = 'f' then
        match cs with
        | 'a' :: 'l' :: 's' :: 'e' :: r => some (.bool false, r)
        | _ => none
      else if c = '"' then
        match parseStringBody [] cs with
        | some (cs2, r) => some (.str cs2, r)
        | none => none
      else if c = '[' then
        match skipWs cs with
        | ']' :: r => some (.arr .nil, r)
        | _ => parseArrItems fuel cs []
      else if c = '{' then
        match skipWs cs with
        | '}' :: r => some (.obj .nil, r)
        | _ => parseObjItems fuel cs .nil
      else if c = '-' ∨ c.isDigit then parseNum (c :: cs)
      else none

/-- Elements of a non-empty array, after `[` or a `,`. -/
def parseArrItems : Nat → List Char → List JsVal → Option (JsVal × List Char)
  | 0, _, _ => none
  | fuel + 1, s, acc =>
    match parseVal fuel s with
    | none => none
    | some (v, r) =>
      match skipWs r with
      | ',' :: r2 => parseArrItems fuel r2 (v :: acc)
      | ']' :: r2 => some (jarr (v :: acc).reverse, r2)
      | _ => none

/-- Members of a non-empty object, after `{` or a `,`. -/
def parseObjItems : Nat → List Char → JsFields → Option (JsVal × List Char)
  | 0, _, _ => none
  | fuel + 1, s, acc =>
    match skipWs s with
    | '"' :: cs =>
      match parseStringBody [] cs with
      | none => none
      | some (k, r) =>
        match skipWs r with
        | ':' :: r2 =>
          match parseVal fuel r2 with
          | none => none
          | some (v, r3) =>
            match skipWs r3 with
            | ',' :: r4 => parseObjItems fuel r4 (acc.set k v)
            | '}' :: r4 => some (.obj (acc.set k v), r4)
            | _ => none
        | _ => none
    | _ => none

end

/-- JavaScript `JSON.parse`: a single value with nothing but whitespace
around it; `none` models a thrown `SyntaxError`. -/
def jsonParse (s : List Char) : Option JsVal :=
  match parseVal (2 * s.length + 8) s with
  | some (v, r) => if skipWs r = [] then some v else none
  | none => none

/-! ## Stream Reframer (lines 107-167) -/

/-- Split a text into the complete lines before each `'\n'` and the trailing
remainder.  This is exactly lines 117-118 of the source:
`const lines = buffer.split('\n'); buffer = lines.pop() || ''` — if
`s.split('\n')` is `l₀ … lₙ₋₁ t` then `splitNl s = ([l₀, …, lₙ₋₁], t)`. -/
def splitNl : List Char → List (List Char) × List Char
  | [] => ([], [])
  | c :: rest =>
    let (ls, r) := splitNl rest
    if c = '\n' then ([] :: ls, r)
    else
      match ls with
      | [] => ([], c :: r)
      | l :: ls' => ((c :: l) :: ls', r)

/-- Does the pattern (first argument) occur at the head of the list? -/
def listStartsWith : List Char → List Char → Bool
  | [], _ => true
  | _ :: _, [] => false
  | p :: ps, c :: cs => p == c && listStartsWith ps cs

/-- JavaScript `line.includes('[DONE]')`. -/
def containsDone : List Char → Bool
  | [] => false
  | c :: rest => listStartsWith (chars "[DONE]") (c :: rest) || containsDone rest

/-- The literal prefix `"data: "` tested on line 121. -/
def dataMarker : List Char := chars "data: "

/-- An outbound record written to the client during streaming: the terminal
sentinel `data: [DONE]\n\n` or a serialized chunk `data: {…}\n\n`. -/
inductive OutEvent where
  | done : OutEvent
  | chunk (c : OpenAIChunk) : OutEvent
deriving Repr, DecidableEq

/-- Observable effect of processing one upstream line: a write to the
response, or the `console.error('Stream parse error', …)` of line 153. -/
inductive StreamAction where
  | write (e : OutEvent) : StreamAction
  | logParseError : StreamAction
deriving Repr, DecidableEq

/-- Processing of one complete line (lines 120-156): lines without the
`data: ` marker are dropped; a line containing `[DONE]` forwards the
sentinel; otherwise the remainder after the 6-character marker is parsed and
a chunk is written, any exception (JSON syntax error, or the `TypeError` from
`nimData.choices` when the parsed value is nullish) being caught and
logged. -/
def processLine (now : Nat) (model : String) (line : List Char) :
    List StreamAction :=
  if listStartsWith dataMarker line then
    if containsDone line then [.write .done]
    else
      match jsonParse (line.drop 6) with
      | none => [.logParseError]
      | some nimData =>
        match buildChunk now model nimData with
        | none => [.logParseError]
        | some c => [.write (.chunk c)]
  else []

/-- One firing of the `data` handler (lines 115-157): append the chunk text
to the carry buffer, split off the complete lines, keep the remainder as the
new buffer, process the complete lines in order. -/
def feedChunk (now : Nat) (model : String) (buffer chunkText : List Char) :
    List Char × List StreamAction :=
  let (lines, rest) := splitNl (buffer ++ chunkText)
  (rest, (lines.map (processLine now model)).flatten)

/-- Fold `feedChunk` over a sequence of upstream chunks, starting from a
given carry buffer. -/
def runChunks (now : Nat) (model : String) (buffer : List Char) :
    List (List Char) → List Char × List StreamAction
  | [] => (buffer, [])
  | c :: cs =>
    let (b1, out1) := feedChunk now model buffer c
    let (b2, out2) := runChunks now model b1 cs
    (b2, out1 ++ out2)

/-- A whole stream: the upstream delivers the given chunks and then signals
normal end-of-stream, whereupon the `end` handler (lines 159-162) writes the
sentinel unconditionally and closes the response. -/
def runStream (now : Nat) (model : String) (chunks : List (List Char)) :
    List StreamAction :=
  (runChunks now model [] chunks).2 ++ [.write .done]

/-- Number of terminal-sentinel records among the written actions. -/
def countDone (actions : List StreamAction) : Nat :=
  actions.countP (fun a => a = .write .done)

/-! ## Catch handler (lines 194-208) -/

/-- The upstream status of a dispatch failure, `error.response?.status`
(line 198). -/
def upstreamStatus (err : JsVal) : JsVal :=
  getPropQ (getProp err (chars "response")) (chars "status")

/-- The upstream error message of a dispatch failure,
`error.response?.data?.error?.message` (line 199). -/
def upstreamErrMessage (err : JsVal) : JsVal :=
  getPropQ
    (getPropQ (getPropQ (getProp err (chars "response")) (chars "data"))
      (chars "error"))
    (chars "message")

/-- The `catch` block (lines 194-208): maps a thrown value (an `Error`, in
particular an axios error carrying an optional `response`) to the error
response.  `err` is never nullish in this program — axios and the runtime
throw `Error` objects.  Line 198 computes
`statusCode = error.response?.status || 500`, line 199
`errorMessage = error.response?.data?.error?.message || error.message ||
'Internal server error'`; the body repeats `statusCode` as `code`. -/
def catchHandler (err : JsVal) : ErrorResponse :=
  { status := jsOr (upstreamStatus err) (.num 500),
    message :=
      jsOr (jsOr (upstreamErrMessage err) (getProp err (chars "message")))
        (jstr "Internal server error"),
    etype := "invalid_request_error",
    param := .null,
    code := jsOr (upstreamStatus err) (.num 500) }

/-! ## Helper definitions used in claim statements -/

/-- A complete line that makes the reframer forward the terminal sentinel:
it carries the `data: ` marker and contains `[DONE]`. -/
def isDoneLine (l : List Char) : Bool :=
  listStartsWith dataMarker l && containsDone l

/-- Number of sentinel-forwarding complete lines in the whole upstream byte
sequence. -/
def doneLineCount (chunks : List (List Char)) : Nat :=
  ((splitNl chunks.flatten).1).countP isDoneLine

/-- Is the value a non-empty string?  (The claims' "present and a non-empty
string"; an absent property reads as `undefined`, which is not.) -/
def JsVal.isNonEmptyStr : JsVal → Bool
  | .str (_ :: _) => true
  | _ => false

/-- Is the value a non-empty array?  (The claims' "present, a sequence, and
non-empty".) -/
def JsVal.isNonEmptyArr : JsVal → Bool
  | .arr (.cons _ _) => true
  | _ => false

/-- Is the value a nonnegative integer number? -/
def isNonnegNum : JsVal → Bool
  | .num n => 0 ≤ n
  | _ => false

/-- Is the value either falsy (so that `|| 0` substitutes the default) or a
nonnegative integer number? -/
def nonnegNumOrFalsy (v : JsVal) : Bool :=
  match v with
  | .num n => 0 ≤ n
  | v => ¬ v.truthy

/-- The single upstream line of claim C3:
`data: {"choices":[{"delta":{"content":"A"}}]}` followed by a newline. -/
def c3Line : List Char :=
  chars "data: \x7b\"choices\":[\x7b\"delta\":\x7b\"content\":\"A\"\x7d\x7d]\x7d\n"

/-- A concrete parsed upstream event with a non-empty role,
`{"choices":[{"delta":{"role":"assistant","content":"x"}}]}`, used to
witness C4. -/
def c4Event : JsVal :=
  jobj [(chars "choices",
    jarr [jobj [(chars "delta",
      jobj [(chars "role", jstr "assistant"),
            (chars "content", jstr "x")])]])]

/-- The upstream body of the C5 counterexample:
`{"usage":{"prompt_tokens":-1}}`. -/
def c5Input : JsVal :=
  jobj [(chars "usage", jobj [(chars "prompt_tokens", .num (-1))])]

/-- A concrete axios-style dispatch failure carrying an upstream response,
used to witness C9. -/
def c9Err : JsVal :=
  jobj [(chars "response",
          jobj [(chars "status", .num 404),
                (chars "data",
                  jobj [(chars "error",
                    jobj [(chars "message", jstr "No such model")])])]),
        (chars "message", jstr "Request failed with status code 404")]

/-- A concrete network-level dispatch failure with no upstream response,
used to witness C9's fallback branches. -/
def c9ErrNoResp : JsVal :=
  jobj [(chars "message", jstr "socket hang up")]

/-- One upstream choice `{"delta":{"content":"A"}}` used in the C10
witness. -/
def c10ChoiceA : JsVal :=
  jobj [(chars "delta", jobj [(chars "content", jstr "A")])]

/-- An upstream body with two choices; the second must be discarded. -/
def c10TwoChoices : JsVal :=
  jobj [(chars "choices",
    jarr [c10ChoiceA,
          jobj [(chars "delta", jobj [(chars "content", jstr "B")])]])]

/-- The same upstream body with only the first choice. -/
def c10OneChoice : JsVal :=
  jobj [(chars "choices", jarr [c10ChoiceA])]

/-! ## Structural lemmas about the carry-buffer line splitter -/

/-- Splitting a concatenation: the complete lines of `xs ++ ys` are the
complete lines of `xs` followed by those of `xs`'s remainder prepended to
`ys`, and the final remainder comes from the latter split. -/
theorem splitNl_append (xs ys : List Char) :
    splitNl (xs ++ ys) =
      ((splitNl xs).1 ++ (splitNl ((splitNl xs).2 ++ ys)).1,
       (splitNl ((splitNl xs).2 ++ ys)).2) := by
  induction xs with
  | nil => simp [splitNl]
  | cons c xs ih =>
    simp only [List.cons_append, splitNl, List.append_eq]
    rw [ih]
    rcases h1 : splitNl xs with ⟨A, t⟩
    by_cases hc : c = '\n'
    · subst hc
      simp
    · simp only [if_neg hc]
      rcases h2 : splitNl (t ++ ys) with ⟨B1, B2⟩
      cases A with
      | nil =>
        cases B1 with
        | nil => simp [splitNl, List.append_eq, h2, hc]
        | cons b bs => simp [splitNl, List.append_eq, h2, hc]
      | cons a as =>
        simp [h2]

/-- The remainder kept in the carry buffer contains no newline: splitting it
again yields no complete line. -/
theorem splitNl_snd (s : List Char) :
    splitNl (splitNl s).2 = ([], (splitNl s).2) := by
  induction s with
  | nil => simp [splitNl]
  | cons c rest ih =>
    simp only [splitNl]
    rcases h1 : splitNl rest with ⟨ls, r⟩
    rw [h1] at ih
    by_cases hc : c = '\n'
    · subst hc
      simpa using ih
    · simp only [if_neg hc]
      cases ls with
      | nil =>
        simp only [splitNl]
        rw [ih]
        simp [hc]
      | cons l ls' => simpa using ih

/-- Feeding one chunk that is a concatenation equals feeding the two parts
in sequence: the carry buffer makes the reframer insensitive to chunk
boundaries. -/
theorem feedChunk_append (now : Nat) (model : String) (buf a b : List Char) :
    feedChunk now model buf (a ++ b) =
      ((feedChunk now model (feedChunk now model buf a).1 b).1,
       (feedChunk now model buf a).2 ++
         (feedChunk now model (feedChunk now model buf a).1 b).2) := by
  simp only [feedChunk]
  rw [show buf ++ (a ++ b) = (buf ++ a) ++ b by simp, splitNl_append (buf ++ a) b]
  simp

/-- Folding the `data` handler over a chunk list is the same as feeding the
whole concatenation at once, provided the starting buffer holds no complete
line. -/
theorem runChunks_eq_feed (now : Nat) (model : String) :
    ∀ (chunks : List (List Char)) (buf : List Char),
      splitNl buf = ([], buf) →
      runChunks now model buf chunks = feedChunk now model buf chunks.flatten := by
  intro chunks
  induction chunks with
  | nil =>
    intro buf hbuf
    simp [runChunks, feedChunk, hbuf]
  | cons c cs ih =>
    intro buf _
    simp only [runChunks, List.flatten_cons]
    rw [feedChunk_append]
    have hb1 : splitNl (feedChunk now model buf c).1 =
        ([], (feedChunk now model buf c).1) := by
      simp only [feedChunk]
      exact splitNl_snd (buf ++ c)
    rw [ih (feedChunk now model buf c).1 hb1]

/-- Processing one complete line writes the sentinel exactly when the line is
a `data: `-marked line containing `[DONE]`, and otherwise writes no
sentinel. -/
theorem countDone_processLine (now : Nat) (model : String) (l : List Char) :
    countDone (processLine now model l) = if isDoneLine l then 1 else 0 := by
  simp only [processLine, isDoneLine, countDone]
  by_cases h1 : listStartsWith dataMarker l = true
  · by_cases h2 : containsDone l = true
    · simp [h1, h2]
    · cases hj : jsonParse (l.drop 6) with
      | none => simp [h1, h2, hj]
      | some v =>
        cases hb : buildChunk now model v with
        | none => simp [h1, h2, hj, hb]
        | some c => simp [h1, h2, hj, hb]
  · simp [h1, Bool.and_eq_true]

/-- Sentinel count over a list of complete lines. -/
theorem countDone_lines (now : Nat) (model : String)
    (lines : List (List Char)) :
    countDone ((lines.map (processLine now model)).flatten) =
      lines.countP isDoneLine := by
  induction lines with
  | nil => simp [countDone]
  | cons l ls ih =>
    simp only [List.map_cons, List.flatten_cons, countDone,
      List.countP_append, List.countP_cons] at *
    rw [← countDone, countDone_processLine, ih]
    by_cases h : isDoneLine l = true <;> simp [h, Nat.add_comm]

/-- If a value is falsy or a nonnegative number, `v || 0` is a nonnegative
number. -/
theorem isNonnegNum_jsOr_zero (v : JsVal) (h : nonnegNumOrFalsy v = true) :
    isNonnegNum (jsOr v (.num 0)) = true := by
  by_cases ht : v.truthy = true
  · cases v <;> simp_all [nonnegNumOrFalsy, jsOr, isNonnegNum, JsVal.truthy]
    obtain ⟨x, hx, hne⟩ := ht
    exact hne (h x hx)
  · have ht' : v.truthy = false := by simpa using ht
    simp [jsOr, ht', isNonnegNum]

/-! ## Claim theorems -/

/-- C1 (corrected).  The Stream Reframer does not emit the terminal sentinel
exactly once per stream: it emits it once for every `data: `-marked upstream
line containing `[DONE]` (line 122-125) **plus** once more when the transport
signals end-of-stream (lines 159-162, which write the sentinel
unconditionally, with no "already emitted" tracking).  In particular the
count is `1` exactly when the upstream sends no explicit sentinel line, and
`2` when it sends one and then the transport ends. -/
theorem c1_sentinel_count (now : Nat) (model : String)
    (chunks : List (List Char)) :
    countDone (runStream now model chunks) = doneLineCount chunks + 1 := by
  simp only [runStream, doneLineCount]
  rw [runChunks_eq_feed now model chunks [] (by simp [splitNl])]
  simp only [feedChunk, List.nil_append, countDone, List.countP_append,
    List.countP_cons, List.countP_nil]
  rw [← countDone, countDone_lines]
  simp

/-- C1 counterexample: when the upstream sends the single line
`data: [DONE]\n` and then the transport ends, the sentinel is written twice,
not once as the claim states. -/
theorem c1_counterexample :
    countDone (runStream 0 "gpt-4" [chars "data: [DONE]\n"]) = 2 := by decide

/-- C2 (code bug).  For every key of the static table the resolver returns
the mapped backend identifier, and for an ordinary unknown string it returns
the fixed default; but for a string naming a property inherited from
`Object.prototype` — such as `"toString"` — the lookup
`MODEL_MAPPING[model]` yields the inherited truthy function value, so
`MODEL_MAPPING[model] || DEFAULT_NIM_MODEL` is that non-string value rather
than the default, contradicting the claim (and the code's own "guaranteed
fallback" comment). -/
theorem c2_resolver_proto :
    MODEL_MAPPING.all
      (fun p => decide (resolveModel p.1 = JsVal.str p.2)) = true ∧
    resolveModel (chars "toString") = .fn (chars "toString") ∧
    (resolveModel (chars "toString")).isStr = false ∧
    resolveModel (chars "totally-unknown-model") =
      .str (chars DEFAULT_NIM_MODEL) ∧
    resolveModel (chars "") = .str (chars DEFAULT_NIM_MODEL) ∧
    resolveModel (chars "GPT-4") = .str (chars DEFAULT_NIM_MODEL) ∧
    resolveModel (chars "12345") = .str (chars DEFAULT_NIM_MODEL) := by
  refine ⟨by decide, by decide, by decide, by decide, by decide, by decide,
    by decide⟩

/-- C3 (confirmed).  For every byte offset `k`, feeding the single line
`data: {"choices":[{"delta":{"content":"A"}}]}\n` as two successive chunks
split at `k` emits exactly one record, a chunk whose delta content is `"A"`
(no `role` key, `finish_reason` null): the carry buffer makes the reframer
insensitive to the split point. -/
theorem c3_split_invariance (now : Nat) (model : String) (k : Nat) :
    (runChunks now model [] [c3Line.take k, c3Line.drop k]).2 =
      [.write (.chunk
        { id := "chatcmpl-" ++ toString now,
          object := "chat.completion.chunk",
          created := now / 1000,
          model := model,
          choices := [{ index := 0, deltaRole := none,
                        deltaContent := jstr "A",
                        finish_reason := .null }] })] := by
  rw [runChunks_eq_feed now model [c3Line.take k, c3Line.drop k] []
    (by simp [splitNl])]
  have hflat : ([c3Line.take k, c3Line.drop k] : List (List Char)).flatten =
      c3Line := by
    simp
  rw [hflat]
  rfl

/-- C4 (confirmed).  The serialized delta of an emitted chunk has a `role`
key exactly when the upstream role is truthy; for a string role this means
non-empty, and an absent (`undefined`) or `null` upstream role always leaves
the key out entirely (lines 138-149: the key is written and then deleted
whenever its value is falsy). -/
theorem c4_role_presence (now : Nat) (model : String) (nimData : JsVal)
    (c : OpenAIChunk) (ch : ChunkChoice)
    (hb : buildChunk now model nimData = some c) (hch : c.choices = [ch]) :
    (ch.deltaRole ≠ none ↔ (upstreamDeltaRole nimData).truthy = true) ∧
    (∀ s, upstreamDeltaRole nimData = .str s →
      (ch.deltaRole = some (.str s) ↔ s ≠ [])) ∧
    ((upstreamDeltaRole nimData = .undefined ∨ upstreamDeltaRole nimData = .null) →
      ch.deltaRole = none) := by
  by_cases hn : nimData.nullish = true
  · simp [buildChunk, hn] at hb
  · unfold buildChunk at hb
    rw [if_neg hn] at hb
    have heq := Option.some.inj hb
    subst heq
    simp only [List.cons.injEq, and_true] at hch
    subst hch
    refine ⟨?_, ?_, ?_⟩
    · by_cases hr : (upstreamDeltaRole nimData).truthy = true <;> simp [hr]
    · intro s hs
      rw [hs]
      cases s with
      | nil => simp [hs, JsVal.truthy]
      | cons a as => simp [hs, JsVal.truthy]
    · intro hr
      rcases hr with hr | hr <;> simp [hr, JsVal.truthy]

/-- Witness for C4 at a concrete event: upstream delta
`{"role":"assistant","content":"x"}` yields a chunk whose role key is
present and holds `"assistant"`. -/
theorem c4_role_presence_witness :
    (some (JsVal.str (chars "assistant")) ≠ none ↔
      (upstreamDeltaRole c4Event).truthy = true) ∧
    (some (JsVal.str (chars "assistant")) =
        some (JsVal.str (chars "assistant")) ↔
      chars "assistant" ≠ []) := by
  have h := c4_role_presence 0 "gpt-4" c4Event
    { id := "chatcmpl-0", object := "chat.completion.chunk", created := 0,
      model := "gpt-4",
      choices := [{ index := 0,
                    deltaRole := some (JsVal.str (chars "assistant")),
                    deltaContent := jstr "x", finish_reason := .null }] }
    { index := 0, deltaRole := some (JsVal.str (chars "assistant")),
      deltaContent := jstr "x", finish_reason := .null }
    (by decide) (by decide)
  exact ⟨h.1, h.2.1 (chars "assistant") (by decide)⟩

/-- C5 (corrected).  The Response Normalizer is total on JSON objects and
substitutes the documented defaults for missing sub-fields; but an upstream
usage counter that is truthy is passed through unchanged by `|| 0`, so a
usage field of the envelope is a nonnegative number only under the proviso
that the corresponding upstream counter is falsy/absent or itself a
nonnegative number. -/
theorem c5_normalizer_defaults (now : Nat) (model : String)
    (fields : JsFields) :
    ∃ env, normalizeResponse now model (.obj fields) = some env ∧
      env.object = "chat.completion" ∧
      env.model = model ∧
      env.choices.length = 1 ∧
      (∀ ch ∈ env.choices,
        ch.index = 0 ∧ ch.messageRole = "assistant" ∧
        ((getPropQ (getPropQ (firstChoice (.obj fields)) (chars "message"))
            (chars "content")).truthy = false → ch.messageContent = jstr "") ∧
        ((getPropQ (firstChoice (.obj fields))
            (chars "finish_reason")).truthy = false →
          ch.finish_reason = jstr "stop")) ∧
      (nonnegNumOrFalsy (getPropQ (getProp (.obj fields) (chars "usage"))
          (chars "prompt_tokens")) = true →
        isNonnegNum env.usage.prompt_tokens = true) ∧
      (nonnegNumOrFalsy (getPropQ (getProp (.obj fields) (chars "usage"))
          (chars "completion_tokens")) = true →
        isNonnegNum env.usage.completion_tokens = true) ∧
      (nonnegNumOrFalsy (getPropQ (getProp (.obj fields) (chars "usage"))
          (chars "total_tokens")) = true →
        isNonnegNum env.usage.total_tokens = true) := by
  refine ⟨_, rfl, rfl, rfl, rfl, ?_, ?_, ?_, ?_⟩
  · intro ch hch
    simp only [List.mem_singleton] at hch
    subst hch
    refine ⟨rfl, rfl, ?_, ?_⟩
    · intro h; simp [jsOr, h]
    · intro h; simp [jsOr, h]
  · intro h; exact isNonnegNum_jsOr_zero _ h
  · intro h; exact isNonnegNum_jsOr_zero _ h
  · intro h; exact isNonnegNum_jsOr_zero _ h

/-- Witness for C5 on the empty object `{}`: all defaults apply — the single
choice has index 0, role `"assistant"`, empty content, finish reason
`"stop"`, and the usage counters are nonnegative numbers. -/
theorem c5_normalizer_defaults_witness :
    (normalizeResponse 0 "gpt-4" (.obj .nil)).map
      (fun env =>
        (env.choices.map (fun ch =>
          (ch.index, ch.messageRole, ch.messageContent, ch.finish_reason)),
         isNonnegNum env.usage.prompt_tokens,
         isNonnegNum env.usage.completion_tokens,
         isNonnegNum env.usage.total_tokens)) =
      some ([(0, "assistant", jstr "", jstr "stop")], true, true, true) := by
  obtain ⟨env, heq, _, _, hlen, hch, hp, hc, ht⟩ :=
    c5_normalizer_defaults 0 "gpt-4" .nil
  obtain ⟨ch, hchoices⟩ := List.length_eq_one.mp hlen
  obtain ⟨hidx, hrole, hcontent, hfin⟩ :=
    hch ch (by rw [hchoices]; exact List.mem_singleton_self ch)
  rw [heq]
  simp [hchoices, hidx, hrole, hcontent (by decide), hfin (by decide),
    hp (by decide), hc (by decide), ht (by decide)]

/-- C5 counterexample: on the JSON object `{"usage":{"prompt_tokens":-1}}`
the normalizer passes the negative counter through, so the produced
envelope's `usage.prompt_tokens` is `-1`, not a nonnegative number as the
claim requires of every JSON object input. -/
theorem c5_counterexample :
    (normalizeResponse 0 "gpt-4" c5Input).map
      (fun env => env.usage.prompt_tokens) = some (.num (-1)) ∧
    (normalizeResponse 0 "gpt-4" c5Input).map
      (fun env => isNonnegNum env.usage.prompt_tokens) = some false := by
  exact ⟨by decide, by decide⟩

/-- C6 (confirmed).  The `model` field of every produced completion envelope
and of every emitted chunk is the client-requested model name (the `model`
variable, lines 135 and 175), never the resolved backend identifier. -/
theorem c6_model_echo (now : Nat) (model : String) (data nimData : JsVal)
    (env : OpenAIResponse) (c : OpenAIChunk) :
    (normalizeResponse now model data = some env → env.model = model) ∧
    (buildChunk now model nimData = some c → c.model = model) := by
  constructor
  · intro h
    by_cases hn : data.nullish = true
    · simp [normalizeResponse, hn] at h
    · unfold normalizeResponse at h
      rw [if_neg hn] at h
      have heq := Option.some.inj h
      subst heq
      rfl
  · intro h
    by_cases hn : nimData.nullish = true
    · simp [buildChunk, hn] at h
    · unfold buildChunk at h
      rw [if_neg hn] at h
      have heq := Option.some.inj h
      subst heq
      rfl

/-- Witness for C6 with the unknown client model name `"foo-bar"` (resolved
upstream to the default backend identifier): the envelope still echoes
`"foo-bar"`. -/
theorem c6_model_echo_witness :
    ({ id := "chatcmpl-0", object := "chat.completion", created := 0,
       model := "foo-bar",
       choices := [{ index := 0, messageRole := "assistant",
                     messageContent := jstr "",
                     finish_reason := jstr "stop" }],
       usage := { prompt_tokens := .num 0, completion_tokens := .num 0,
                  total_tokens := .num 0 } } : OpenAIResponse).model =
      "foo-bar" := by
  refine (c6_model_echo 0 "foo-bar" (.obj .nil) (.obj .nil) _
    { id := "chatcmpl-0", object := "chat.completion.chunk", created := 0,
      model := "foo-bar", choices := [] }).1 ?_
  decide

/-- A value passes the source's model check `!model || typeof model !==
'string'` exactly when it is a non-empty string. -/
theorem validation_cond_model (v : JsVal) :
    (¬ (v.truthy = true) ∨ ¬ (v.isStr = true)) ↔ v.isNonEmptyStr = false := by
  cases v <;>
    simp [JsVal.truthy, JsVal.isStr, JsVal.isNonEmptyStr]
  rename_i s
  cases s <;> simp

/-- A value passes the source's messages check `!messages ||
!Array.isArray(messages) || messages.length === 0` exactly when it is a
non-empty array. -/
theorem validation_cond_messages (v : JsVal) :
    (¬ (v.truthy = true) ∨ ¬ (v.isArr = true) ∨ v.arrLen = 0) ↔
      v.isNonEmptyArr = false := by
  cases v <;>
    simp [JsVal.truthy, JsVal.isArr, JsVal.arrLen, JsVal.isNonEmptyArr]
  rename_i xs
  cases xs <;> simp [JsVal.isNonEmptyArr, JsList.length]

/-- C7 (confirmed).  For a delivered (non-nullish) body: when `model` is not
a non-empty string the handler answers the 400 `param="model"` error (status
400, `type` `invalid_request_error`, `code` null) before any upstream
request is built; otherwise when `messages` is not a non-empty array it
answers the 400 `param="messages"` error; otherwise it proceeds to build the
upstream request.  The model check is applied first. -/
theorem c7_validation (body : JsVal) (out : Except ErrorResponse NimRequest)
    (h : handleRequest body = some out) :
    ((getProp body (chars "model")).isNonEmptyStr = false →
      out = .error modelValidationError) ∧
    ((getProp body (chars "model")).isNonEmptyStr = true →
      (getProp body (chars "messages")).isNonEmptyArr = false →
      out = .error messagesValidationError) ∧
    ((getProp body (chars "model")).isNonEmptyStr = true →
      (getProp body (chars "messages")).isNonEmptyArr = true →
      ∃ nr, out = .ok nr) ∧
    modelValidationError.status = .num 400 ∧
    modelValidationError.param = jstr "model" ∧
    modelValidationError.code = .null ∧
    modelValidationError.etype = "invalid_request_error" ∧
    messagesValidationError.status = .num 400 ∧
    messagesValidationError.param = jstr "messages" ∧
    messagesValidationError.code = .null ∧
    messagesValidationError.etype = "invalid_request_error" := by
  by_cases hnull : body.nullish = true
  · simp [handleRequest, hnull] at h
  · unfold handleRequest at h
    rw [if_neg hnull] at h
    have h' := Option.some.inj h
    subst h'
    refine ⟨?_, ?_, ?_, rfl, rfl, rfl, rfl, rfl, rfl, rfl, rfl⟩
    · intro hf
      rw [if_pos ((validation_cond_model _).mpr hf)]
    · intro ht hf
      have hnc1 : ¬ (¬ ((getProp body (chars "model")).truthy = true) ∨
          ¬ ((getProp body (chars "model")).isStr = true)) := fun hc => by
        simp [(validation_cond_model _).mp hc] at ht
      rw [if_neg hnc1, if_pos ((validation_cond_messages _).mpr hf)]
    · intro ht1 ht2
      have hnc1 : ¬ (¬ ((getProp body (chars "model")).truthy = true) ∨
          ¬ ((getProp body (chars "model")).isStr = true)) := fun hc => by
        simp [(validation_cond_model _).mp hc] at ht1
      have hnc2 : ¬ (¬ ((getProp body (chars "messages")).truthy = true) ∨
          ¬ ((getProp body (chars "messages")).isArr = true) ∨
          (getProp body (chars "messages")).arrLen = 0) := fun hc => by
        simp [(validation_cond_messages _).mp hc] at ht2
      rw [if_neg hnc1, if_neg hnc2]
      exact ⟨_, rfl⟩

/-- Witness for C7: the empty body yields the `param="model"` error; a body
with only a model yields the `param="messages"` error; a well-formed body
passes validation. -/
theorem c7_validation_witness :
    handleRequest (jobj []) = some (.error modelValidationError) ∧
    (Except.error modelValidationError :
      Except ErrorResponse NimRequest) = .error modelValidationError ∧
    (Except.error messagesValidationError :
      Except ErrorResponse NimRequest) = .error messagesValidationError ∧
    ∃ nr, (Except.ok
      ({ model := .str (chars "meta/llama-3.1-70b-instruct"),
         messages := jarr [jstr "hi"],
         temperature := .numRaw (chars "0.7"),
         max_tokens := .num 2048,
         stream := .bool false } : NimRequest) :
      Except ErrorResponse NimRequest) = .ok nr := by
  refine ⟨rfl, ?_, ?_, ?_⟩
  · exact (c7_validation (jobj []) (.error modelValidationError)
      rfl).1 (by decide)
  · exact (c7_validation (jobj [(chars "model", jstr "gpt-4")])
      (.error messagesValidationError) rfl).2.1 (by decide) (by decide)
  · exact (c7_validation
      (jobj [(chars "model", jstr "gpt-4"),
             (chars "messages", jarr [jstr "hi"])])
      (.ok { model := .str (chars "meta/llama-3.1-70b-instruct"),
             messages := jarr [jstr "hi"],
             temperature := .numRaw (chars "0.7"),
             max_tokens := .num 2048,
             stream := .bool false })
      rfl).2.2.1 (by decide) (by decide)

/-- C8 (confirmed).  A `data: `-marked line that is not the sentinel and
whose remainder fails to parse as JSON produces exactly the logged parse
error — nothing is written to the client for it — and processing of the
following lines is unaffected. -/
theorem c8_parse_failure (now : Nat) (model : String) (line : List Char)
    (rest : List (List Char))
    (h1 : listStartsWith dataMarker line = true)
    (h2 : containsDone line = false)
    (h3 : jsonParse (line.drop 6) = none) :
    processLine now model line = [.logParseError] ∧
    ((line :: rest).map (processLine now model)).flatten =
      .logParseError :: (rest.map (processLine now model)).flatten := by
  have hp : processLine now model line = [.logParseError] := by
    simp [processLine, h1, h2, h3]
  exact ⟨hp, by simp [hp]⟩

/-- Witness for C8 on the malformed line `data: {oops`: it is logged,
nothing is emitted, and the following sentinel line is still processed. -/
theorem c8_parse_failure_witness :
    listStartsWith dataMarker (chars "data: \x7boops") = true ∧
    containsDone (chars "data: \x7boops") = false ∧
    jsonParse ((chars "data: \x7boops").drop 6) = none ∧
    processLine 0 "gpt-4" (chars "data: \x7boops") = [.logParseError] ∧
    (((chars "data: \x7boops") :: [chars "data: [DONE]"]).map
        (processLine 0 "gpt-4")).flatten =
      .logParseError :: ([chars "data: [DONE]"].map
        (processLine 0 "gpt-4")).flatten := by
  have h := c8_parse_failure 0 "gpt-4" (chars "data: \x7boops")
    [chars "data: [DONE]"] (by decide) (by decide) (by decide)
  exact ⟨by decide, by decide, by decide, h.1, h.2⟩

/-- C9 (confirmed).  The catch handler produces a single error response
whose HTTP status is the upstream status when one is available (truthy) and
500 otherwise, whose message is the upstream error message when available,
else the thrown error's own message, else the generic fallback; `type` is
`invalid_request_error` and `code` repeats the numeric status. -/
theorem c9_error_mapping (err : JsVal) (_hn : err.nullish = false) :
    (catchHandler err).etype = "invalid_request_error" ∧
    (catchHandler err).param = .null ∧
    (catchHandler err).code = (catchHandler err).status ∧
    ((upstreamStatus err).truthy = true →
      (catchHandler err).status = upstreamStatus err) ∧
    ((upstreamStatus err).truthy = false →
      (catchHandler err).status = .num 500) ∧
    ((upstreamErrMessage err).truthy = true →
      (catchHandler err).message = upstreamErrMessage err) ∧
    ((upstreamErrMessage err).truthy = false →
      (getProp err (chars "message")).truthy = true →
      (catchHandler err).message = getProp err (chars "message")) ∧
    ((upstreamErrMessage err).truthy = false →
      (getProp err (chars "message")).truthy = false →
      (catchHandler err).message = jstr "Internal server error") := by
  refine ⟨rfl, rfl, rfl, ?_, ?_, ?_, ?_, ?_⟩
  · intro h; simp [catchHandler, jsOr, h]
  · intro h; simp [catchHandler, jsOr, h]
  · intro h
    have hm : (jsOr (upstreamErrMessage err)
        (getProp err (chars "message"))).truthy = true := by
      simp [jsOr, h]
    simp [catchHandler, jsOr, h, hm]
  · intro h1 h2
    simp [catchHandler, jsOr, h1, h2]
  · intro h1 h2
    simp [catchHandler, jsOr, h1, h2]

/-- Witness for C9: a 404 axios failure with an upstream message reuses both
(status 404, message `"No such model"`, `code` = status); a responseless
network failure falls back to 500 and the error's own message. -/
theorem c9_error_mapping_witness :
    (catchHandler c9Err).status = upstreamStatus c9Err ∧
    (catchHandler c9Err).message = upstreamErrMessage c9Err ∧
    (catchHandler c9Err).code = (catchHandler c9Err).status ∧
    (catchHandler c9ErrNoResp).status = .num 500 ∧
    (catchHandler c9ErrNoResp).message =
      getProp c9ErrNoResp (chars "message") := by
  have h1 := c9_error_mapping c9Err (by decide)
  have h2 := c9_error_mapping c9ErrNoResp (by decide)
  exact ⟨h1.2.2.2.1 (by decide), h1.2.2.2.2.2.1 (by decide), h1.2.2.1,
    h2.2.2.2.2.1 (by decide), h2.2.2.2.2.2.2.1 (by decide) (by decide)⟩

/-- C10 (confirmed).  Every produced envelope and every built chunk has a
choices array of exactly one element with index 0; the output depends on the
upstream body only through its first choice (`choices?.[0]`) — and, for the
non-streaming envelope, the `usage` object — so any additional upstream
choices are silently discarded. -/
theorem c10_single_choice (now : Nat) (model : String) (j j' : JsVal)
    (c : OpenAIChunk) (env : OpenAIResponse) :
    (buildChunk now model j = some c →
      c.choices.length = 1 ∧ ∀ ch ∈ c.choices, ch.index = 0) ∧
    (normalizeResponse now model j = some env →
      env.choices.length = 1 ∧ ∀ ch ∈ env.choices, ch.index = 0) ∧
    (j.nullish = false → j'.nullish = false →
      firstChoice j = firstChoice j' →
      buildChunk now model j = buildChunk now model j' ∧
      (getProp j (chars "usage") = getProp j' (chars "usage") →
        normalizeResponse now model j = normalizeResponse now model j')) := by
  refine ⟨?_, ?_, ?_⟩
  · intro h
    by_cases hn : j.nullish = true
    · simp [buildChunk, hn] at h
    · unfold buildChunk at h
      rw [if_neg hn] at h
      have heq := Option.some.inj h
      subst heq
      refine ⟨rfl, ?_⟩
      intro ch hch
      simp only [List.mem_singleton] at hch
      subst hch
      rfl
  · intro h
    by_cases hn : j.nullish = true
    · simp [normalizeResponse, hn] at h
    · unfold normalizeResponse at h
      rw [if_neg hn] at h
      have heq := Option.some.inj h
      subst heq
      refine ⟨rfl, ?_⟩
      intro ch hch
      simp only [List.mem_singleton] at hch
      subst hch
      rfl
  · intro hn hn' hfc
    constructor
    · simp [buildChunk, hn, hn', upstreamDeltaRole, upstreamDelta, hfc]
    · intro husage
      simp [normalizeResponse, hn, hn', hfc, husage]

/-- Witness for C10: an upstream body with two choices produces exactly the
same chunk and envelope as the body keeping only its first choice, and that
chunk has a single choice with index 0. -/
theorem c10_single_choice_witness :
    buildChunk 0 "gpt-4" c10TwoChoices = buildChunk 0 "gpt-4" c10OneChoice ∧
    normalizeResponse 0 "gpt-4" c10TwoChoices =
      normalizeResponse 0 "gpt-4" c10OneChoice ∧
    ({ id := "chatcmpl-0", object := "chat.completion.chunk", created := 0,
       model := "gpt-4",
       choices := [{ index := 0, deltaRole := none,
                     deltaContent := jstr "A", finish_reason := .null }] } :
      OpenAIChunk).choices.length = 1 := by
  have h := c10_single_choice 0 "gpt-4" c10TwoChoices c10OneChoice
    { id := "chatcmpl-0", object := "chat.completion.chunk", created := 0,
      model := "gpt-4",
      choices := [{ index := 0, deltaRole := none,
                    deltaContent := jstr "A", finish_reason := .null }] }
    { id := "chatcmpl-0", object := "chat.completion", created := 0,
      model := "gpt-4", choices := [], usage := ⟨.num 0, .num 0, .num 0⟩ }
  have hcong := h.2.2 (by decide) (by decide) (by decide)
  exact ⟨hcong.1, hcong.2 (by decide), (h.1 (by decide)).1⟩

end NimProxy
